import Mathlib

/- A shallow embedding of the Go functions-framework buildpack
   (cmd/go/functions_framework/main.go), together with proofs about its
   strategy resolution, module wiring, legacy vendored path, version-gated
   template selection and temporary-directory hygiene.

   External effects (filesystem queries, command execution, template
   rendering) are abstracted into an oracle record `Ctx`; each modelled
   function returns the list of side-effecting events it performs together
   with its result. -/

namespace Buildpack

/- ## Character-list string utilities

   Structural-recursion replacements for the Go standard-library string
   operations used by the source (strings.Split, strings.Join,
   strings.Contains, strings.TrimSpace), so that all definitions evaluate
   by kernel reduction. -/

/-- Split a character list at every occurrence of the separator character,
mirroring strings.Split with a one-character separator. -/
def splitOnChar (c : Char) : List Char → List (List Char)
  | [] => [[]]
  | x :: xs =>
    if x = c then [] :: splitOnChar c xs
    else
      match splitOnChar c xs with
      | [] => [[x]]
      | y :: ys => (x :: y) :: ys

/-- Join character lists with a separator character, mirroring strings.Join. -/
def joinWithChar (c : Char) : List (List Char) → List Char
  | [] => []
  | [x] => x
  | x :: y :: ys => x ++ c :: joinWithChar c (y :: ys)

/-- Split at the first occurrence of a character: the part before it, and
(if the character occurs) the part after it. Mirrors strings.IndexRune
followed by slicing as done by the semver parser. -/
def splitAtFirst (c : Char) : List Char → List Char × Option (List Char)
  | [] => ([], none)
  | x :: xs =>
    if x = c then ([], some xs)
    else
      match splitAtFirst c xs with
      | (a, b) => (x :: a, b)

/-- Decide whether the pattern occurs as a contiguous sublist, mirroring
strings.Contains. -/
def isInfixCharList (p : List Char) : List Char → Bool
  | [] => p.isEmpty
  | x :: xs => p.isPrefixOf (x :: xs) || isInfixCharList p xs

/-- substring containment on strings, mirroring strings.Contains. -/
def containsSub (s pat : String) : Bool := isInfixCharList pat.data s.data

/-- ASCII decimal digit test. -/
def isDigitCh (c : Char) : Bool := '0' ≤ c && c ≤ '9'

/-- Characters legal in semver pre-release and build identifiers. -/
def isAlnumHyCh (c : Char) : Bool :=
  ('0' ≤ c && c ≤ '9') || ('a' ≤ c && c ≤ 'z') || ('A' ≤ c && c ≤ 'Z') || c = '-'

/-- Whitespace as trimmed by strings.TrimSpace (ASCII subset). -/
def isSpaceCh (c : Char) : Bool :=
  c = ' ' || c = '\t' || c = '\n' || c = '\x0B' || c = '\x0C' || c = '\r'

/-- Trim whitespace from both ends of a character list. -/
def trimChars (l : List Char) : List Char :=
  ((l.dropWhile isSpaceCh).reverse.dropWhile isSpaceCh).reverse

/-- Trim whitespace from both ends of a string, mirroring strings.TrimSpace. -/
def strTrim (s : String) : String := ⟨trimChars s.data⟩

/-- Numeric value of a list of decimal digit characters. -/
def digitsVal (l : List Char) : Nat :=
  l.foldl (fun acc c => acc * 10 + (c.toNat - 48)) 0

/-- Nonempty and all decimal digits. -/
def allDigits (l : List Char) : Bool := !l.isEmpty && l.all isDigitCh

/-- A numeric identifier with a forbidden leading zero. -/
def numLeadingZero (l : List Char) : Bool :=
  match l with
  | '0' :: _ :: _ => true
  | _ => false

/-- Strict numeric parse: digits only, no leading zeros; mirrors the
numeric-element validation of the semver parser. -/
def parseNumStrict (l : List Char) : Option Nat :=
  if allDigits l && !numLeadingZero l then some (digitsVal l) else none

/- ## Semantic versions

   Modelled from the spec: the third-party semantic-version comparison
   type (blang/semver) used by the source is not part of the repository
   snapshot; the spec describes a semantic triple with optional
   pre-release metadata, tolerant parsing, and an at-least comparison
   (semantic-versioning precedence, under which a pre-release orders
   below the corresponding release). -/

/-- One dot-separated pre-release identifier: numeric or alphanumeric. -/
inductive PreId where
  | num (n : Nat)
  | alnum (s : List Char)
deriving DecidableEq, Repr

/-- Parse one pre-release identifier; numeric identifiers may not have
leading zeros, alphanumeric ones are restricted to [0-9A-Za-z-]. -/
def parsePreId (l : List Char) : Option PreId :=
  if l.isEmpty then none
  else if l.all isDigitCh then
    if numLeadingZero l then none else some (.num (digitsVal l))
  else if l.all isAlnumHyCh then some (.alnum l)
  else none

/-- A parsed semantic version. Build metadata is validated during parsing
but not retained, since version comparison ignores it. -/
structure SemVer where
  major : Nat
  minor : Nat
  patch : Nat
  pre : List PreId
deriving DecidableEq, Repr

/-- Three-way comparison of naturals as an integer sign. -/
def cmpNat (a b : Nat) : Int := if a < b then -1 else if b < a then 1 else 0

/-- Lexicographic three-way comparison of character lists (ASCII order). -/
def cmpCharList : List Char → List Char → Int
  | [], [] => 0
  | [], _ :: _ => -1
  | _ :: _, [] => 1
  | a :: as, b :: bs => if a < b then -1 else if b < a then 1 else cmpCharList as bs

/-- Compare pre-release identifiers: numeric identifiers order below
alphanumeric ones; like kinds compare numerically or lexicographically. -/
def cmpPreId : PreId → PreId → Int
  | .num a, .num b => cmpNat a b
  | .alnum a, .alnum b => cmpCharList a b
  | .num _, .alnum _ => -1
  | .alnum _, .num _ => 1

/-- Compare pre-release identifier lists pairwise; when both versions carry
pre-release data, a shorter list orders below a longer one it prefixes. -/
def cmpPreList : List PreId → List PreId → Int
  | [], [] => 0
  | [], _ :: _ => -1
  | _ :: _, [] => 1
  | a :: as, b :: bs => if cmpPreId a b = 0 then cmpPreList as bs else cmpPreId a b

/-- Semantic-versioning precedence: compare the numeric triple, then
pre-release data, where a release orders above any of its pre-releases. -/
def SemVer.cmp (v o : SemVer) : Int :=
  if v.major ≠ o.major then cmpNat v.major o.major
  else if v.minor ≠ o.minor then cmpNat v.minor o.minor
  else if v.patch ≠ o.patch then cmpNat v.patch o.patch
  else
    match v.pre, o.pre with
    | [], [] => 0
    | [], _ :: _ => 1
    | _ :: _, [] => -1
    | _ :: _, _ :: _ => cmpPreList v.pre o.pre

/-- The at-least comparison used by the template gate (semver GE). -/
def SemVer.ge (v o : SemVer) : Bool := 0 ≤ v.cmp o

/-- Strict semver parse: exactly three dot-separated numeric elements in
the head, optional build metadata after a plus, optional pre-release data
after a hyphen. -/
def semverParse (l : List Char) : Except String SemVer :=
  if l.isEmpty then .error "version string empty"
  else
    let parts := splitOnChar '.' l
    if parts.length < 3 then .error "no Major.Minor.Patch elements found"
    else
      let majorS := parts.headD []
      let minorS := (parts.drop 1).headD []
      let rest := joinWithChar '.' (parts.drop 2)
      let restBuild := splitAtFirst '+' rest
      let patchPre := splitAtFirst '-' restBuild.1
      match parseNumStrict majorS, parseNumStrict minorS, parseNumStrict patchPre.1 with
      | some mj, some mi, some pa =>
        match (match patchPre.2 with
               | none => some ([] : List PreId)
               | some pr => (splitOnChar '.' pr).mapM parsePreId) with
        | none => .error "invalid prerelease identifier"
        | some pres =>
          let buildOk := match restBuild.2 with
            | none => true
            | some bd => (splitOnChar '.' bd).all (fun b => !b.isEmpty && b.all isAlnumHyCh)
          if buildOk then .ok ⟨mj, mi, pa, pres⟩ else .error "invalid build metadata"
      | _, _, _ => .error "invalid numeric version element"

/-- Tolerant semver parse: trim whitespace, strip one leading letter v, and
pad a short version with zero elements (refusing pre-release or build data
on a short version), then parse strictly. -/
def semverParseTolerant (s : String) : Except String SemVer :=
  let t := trimChars s.data
  let t2 := match t with
    | 'v' :: rest => rest
    | _ => t
  let parts := splitOnChar '.' t2
  if parts.length < 3 then
    if (parts.getLastD []).contains '+' || (parts.getLastD []).contains '-' then
      .error "short version cannot contain prerelease or build meta data"
    else semverParse (joinWithChar '.' (parts ++ List.replicate (3 - parts.length) ['0']))
  else semverParse t2

/-- Template variants of the generated entry point. -/
inductive TemplateVariant where
  | V0
  | V1_1
deriving DecidableEq, Repr

/- ## Data model of the buildpack -/

/-- Strategy chosen by the top-level build function. -/
inductive Strategy where
  | ModuleBased
  | VendoredLegacy
deriving DecidableEq, Repr

/-- Error kinds surfaced by the pipeline: user configuration errors
(gcp.UserErrorf), failing collaborator commands, and other wrapped
errors (version parse or template execution failures). -/
inductive BuildError where
  | userError (msg : String)
  | toolFailure (msg : String)
  | otherError (msg : String)
deriving DecidableEq, Repr

/-- Captured output of an external command. -/
structure ExecResult where
  stdout : String
  stderr : String
deriving DecidableEq, Repr

/-- Outcome of ctx.ExecWithErr: success with a result, or failure with an
error message and possibly a captured result. -/
inductive ExecOutcome where
  | success (res : ExecResult)
  | failure (res : Option ExecResult) (err : String)
deriving DecidableEq, Repr

/-- The fnInfo record threaded through the pipeline. -/
structure FnInfo where
  Source : String
  Target : String
  Package : String
deriving DecidableEq, Repr

/-- Observable side effects of the pipeline, in execution order. -/
inductive Event where
  | layer (name : String)
  | setenv (key val : String)
  | setFunctionsEnvVars
  | removeAll (path : String)
  | mkdirAll (path : String)
  | exec (cmd : List String)
  | tempDir (path : String)
  | rename (src dst : String)
  | createFile (path : String)
  | logf (msg : String)
  | warnf (msg : String)
  | setLayerBuild
  | overrideGopath (path : String)
  | overrideBuildable (target : String)
  | handOff (version : String) (mainPath : String) (fn : FnInfo)
  | rendered (tmpl : TemplateVariant)
  | addWebProcess
deriving DecidableEq, Repr

/-- Oracle for the environment a build runs in: filesystem queries,
outcomes of external commands, scratch-directory names and the outcome of
template execution. A build is a pure function of this record. -/
structure Ctx where
  applicationRoot : String
  buildpackRoot : String
  layerPath : String
  fnTarget : String
  supportsNoGoMod : Bool
  fileExists : String → Bool
  statPerm : String → Option Nat
  exec : List String → Except String ExecResult
  execWithErr : List String → ExecOutcome
  extractCacheDir : String
  vendorCacheDir : String
  templateError : Option String

deriving instance DecidableEq for Except

/- ## Constants of the source file -/

def layerName : String := "functions-framework"
def functionsFrameworkModule : String := "github.com/GoogleCloudPlatform/functions-framework-go"
def functionsFrameworkPackage : String := functionsFrameworkModule ++ "/funcframework"
def functionsFrameworkVersion : String := "v1.1.0"
def appName : String := "serverless_function_app"
def fnSourceDir : String := "serverless_function_source_code"

/-- filepath.Join specialised to the two-component uses in the source. -/
def joinPath (a b : String) : String := a ++ "/" ++ b

def goModInitCmd : List String := ["go", "mod", "init", appName]
def goListModCmd : List String := ["go", "list", "-m"]
def goModEditRequireCmd (fnMod : String) : List String :=
  ["go", "mod", "edit", "-require", fnMod ++ "@v0.0.0"]
def goModEditReplaceCmd (fnMod src : String) : List String :=
  ["go", "mod", "edit", "-replace", fnMod ++ "@v0.0.0=" ++ src]
def goListVersionCmd : List String :=
  ["go", "list", "-m", "-f", "\x7b\x7b.Version\x7d\x7d", functionsFrameworkModule]
def goGetFrameworkCmd : List String :=
  ["go", "get", functionsFrameworkModule ++ "@" ++ functionsFrameworkVersion]
def goGetPkgCmd : List String := ["go", "get", functionsFrameworkPackage]
def gitCheckoutCmd : List String := ["git", "checkout", functionsFrameworkVersion]
def extractCmd (source : String) : List String := ["go", "run", "main", "-dir", source]
def findMoveScript : String :=
  "find . -mindepth 1 -not -name serverless_function_source_code -prune -not -name \".google*\" -prune -exec mv -t serverless_function_source_code \x7b\x7d +"
def findMoveCmd : List String := ["bash", "-c", findMoveScript]

/-- The user-configuration error raised for a module identity whose first
path element contains no dot. -/
def modulePathErrMsg (fnMod : String) : String :=
  "the module path in the function's go.mod must contain a dot in the first path element before a slash, e.g. example.com/module, found: " ++ fnMod

def foundVendoredMsg : String :=
  "Found function with vendored dependencies including functions-framework"
def excludedVendoredMsg : String :=
  "Found function with vendored dependencies excluding functions-framework"
def vendoredWarnMsg : String :=
  "Your vendored dependencies do not contain the functions framework (" ++ functionsFrameworkPackage ++ "). If there are conflicts between the vendored packages and the dependencies of the framework, you may see encounter unexpected issues."

/-- Derived path helpers for the legacy vendored layout. -/
def gopathSrcOf (ctx : Ctx) : String := joinPath ctx.applicationRoot "src"
def appPathOf (ctx : Ctx) : String := joinPath (joinPath (gopathSrcOf ctx) appName) "main"
def fnVendoredPathOf (ctx : Ctx) (fn : FnInfo) : String :=
  joinPath (joinPath (gopathSrcOf ctx) fn.Package) "vendor"
def fnFrameworkVendoredPathOf (ctx : Ctx) (fn : FnInfo) : String :=
  joinPath (fnVendoredPathOf ctx fn) functionsFrameworkPackage
def vendCpCmd (ctx : Ctx) (fn : FnInfo) : List String :=
  ["cp", "-r", fnVendoredPathOf ctx fn, appPathOf ctx]

/- ## The modelled pipeline functions -/

/-- Version-gated template selection of createMainGoFile: tolerant parse of
the requested version and of the threshold v1.1.0, then the V1_1 template
when the requested version is at least the threshold, else V0. -/
def selectTemplateVariant (version : String) : Except String TemplateVariant :=
  match semverParseTolerant version with
  | .error e => .error ("unable to parse framework version string " ++ version ++ ": " ++ e)
  | .ok requestedVersion =>
    match semverParseTolerant "v1.1.0" with
    | .error e => .error ("unable to parse framework version string v1.1.0: " ++ e)
    | .ok v11 => .ok (if requestedVersion.ge v11 then .V1_1 else .V0)

/-- createMainGoFile: create the destination file, select the template
variant by version, and execute the template into the file. -/
def createMainGoFile (ctx : Ctx) (fn : FnInfo) (mainPath version : String) :
    List Event × Except String Unit :=
  match selectTemplateVariant version with
  | .error e => ([.createFile mainPath], .error e)
  | .ok tmpl =>
    match ctx.templateError with
    | some e => ([.createFile mainPath], .error ("executing template: " ++ e))
    | none => ([.createFile mainPath, .rendered tmpl], .ok ())

/-- frameworkSpecifiedVersion: introspect the framework dependency version
declared by the function's go.mod; success yields the trimmed stdout, a
failure whose stderr mentions an unknown dependency yields the empty
(unspecified) version, any other failure propagates. -/
def frameworkSpecifiedVersion (ctx : Ctx) (fnSource : String) :
    List Event × Except String String :=
  match ctx.execWithErr goListVersionCmd with
  | .success res =>
    ([.exec goListVersionCmd, .logf ("Found framework version " ++ strTrim res.stdout)],
     .ok (strTrim res.stdout))
  | .failure (some res) err =>
    if containsSub res.stderr "not a known dependency" then
      ([.exec goListVersionCmd, .logf "No framework version specified, using default"], .ok "")
    else ([.exec goListVersionCmd], .error err)
  | .failure none err => ([.exec goListVersionCmd], .error err)

/-- The validation guard of createMainGoMod: the identity split on slashes
is nonempty and its first element contains no dot. -/
def badModuleIdentity (fnMod : String) : Bool :=
  !(splitOnChar '/' fnMod.data).isEmpty &&
    !(((splitOnChar '/' fnMod.data).headD []).contains '.')

/-- The function info as rewired by createMainGoMod: the package import
path becomes the module identity, extended by the package name when an
entry named after the package exists at the application root. -/
def modWiredFnInfo (ctx : Ctx) (fn : FnInfo) (fnMod : String) : FnInfo :=
  { fn with Package := if ctx.fileExists (joinPath ctx.applicationRoot fn.Package)
                       then fnMod ++ "/" ++ fn.Package else fnMod }

/-- The destination of the module-based entry point. -/
def modMainPath (ctx : Ctx) : String := joinPath ctx.applicationRoot "main.go"

/-- The steps of createMainGoMod after module-identity introspection:
validate the identity, compute the package import path, add the
requirement and local replace, resolve the framework version (adding the
pinned default when unspecified) and hand off to the template renderer.
The returned trace excludes the two introspection commands. -/
def createMainGoModValidated (ctx : Ctx) (fn : FnInfo) (fnMod : String) :
    List Event × Except BuildError Unit :=
  if badModuleIdentity fnMod then
    ([], .error (.userError (modulePathErrMsg fnMod)))
  else
    match ctx.exec (goModEditRequireCmd fnMod) with
    | .error e => ([.exec (goModEditRequireCmd fnMod)], .error (.toolFailure e))
    | .ok _ =>
      match ctx.exec (goModEditReplaceCmd fnMod fn.Source) with
      | .error e =>
        ([.exec (goModEditRequireCmd fnMod), .exec (goModEditReplaceCmd fnMod fn.Source)],
         .error (.toolFailure e))
      | .ok _ =>
        match (frameworkSpecifiedVersion ctx fn.Source).2 with
        | .error e =>
          (Event.exec (goModEditRequireCmd fnMod) ::
             Event.exec (goModEditReplaceCmd fnMod fn.Source) ::
             (frameworkSpecifiedVersion ctx fn.Source).1,
           .error (.toolFailure ("checking for functions framework dependency in go.mod: " ++ e)))
        | .ok version =>
          if version == "" then
            match ctx.exec goGetFrameworkCmd with
            | .error e =>
              (Event.exec (goModEditRequireCmd fnMod) ::
                 Event.exec (goModEditReplaceCmd fnMod fn.Source) ::
                 ((frameworkSpecifiedVersion ctx fn.Source).1 ++ [.exec goGetFrameworkCmd]),
               .error (.toolFailure e))
            | .ok _ =>
              (Event.exec (goModEditRequireCmd fnMod) ::
                 Event.exec (goModEditReplaceCmd fnMod fn.Source) ::
                 ((frameworkSpecifiedVersion ctx fn.Source).1 ++
                   Event.exec goGetFrameworkCmd ::
                   Event.handOff functionsFrameworkVersion (modMainPath ctx)
                     (modWiredFnInfo ctx fn fnMod) ::
                   (createMainGoFile ctx (modWiredFnInfo ctx fn fnMod)
                     (modMainPath ctx) functionsFrameworkVersion).1),
               Except.mapError .otherError
                 (createMainGoFile ctx (modWiredFnInfo ctx fn fnMod)
                   (modMainPath ctx) functionsFrameworkVersion).2)
          else
            (Event.exec (goModEditRequireCmd fnMod) ::
               Event.exec (goModEditReplaceCmd fnMod fn.Source) ::
               ((frameworkSpecifiedVersion ctx fn.Source).1 ++
                 Event.handOff version (modMainPath ctx) (modWiredFnInfo ctx fn fnMod) ::
                 (createMainGoFile ctx (modWiredFnInfo ctx fn fnMod)
                   (modMainPath ctx) version).1),
             Except.mapError .otherError
               (createMainGoFile ctx (modWiredFnInfo ctx fn fnMod) (modMainPath ctx) version).2)

/-- createMainGoMod: initialise the application module, introspect the
function module identity, then continue with validation and wiring. -/
def createMainGoMod (ctx : Ctx) (fn : FnInfo) : List Event × Except BuildError Unit :=
  match ctx.exec goModInitCmd with
  | .error e => ([.exec goModInitCmd], .error (.toolFailure e))
  | .ok _ =>
    match ctx.exec goListModCmd with
    | .error e => ([.exec goModInitCmd, .exec goListModCmd], .error (.toolFailure e))
    | .ok res =>
      (Event.exec goModInitCmd :: Event.exec goListModCmd ::
         (createMainGoModValidated ctx fn res.stdout).1,
       (createMainGoModValidated ctx fn res.stdout).2)

/-- The workspace-construction and relocation events that open the
legacy vendored path. -/
def vendoredSetupEvs (ctx : Ctx) (fn : FnInfo) : List Event :=
  [.setLayerBuild, .overrideGopath ctx.applicationRoot, .mkdirAll (gopathSrcOf ctx),
   .overrideBuildable (appName ++ "/main"), .mkdirAll (appPathOf ctx),
   .rename fn.Source (joinPath (gopathSrcOf ctx) fn.Package)]

/-- The destination of the legacy vendored entry point. -/
def vendMainPath (ctx : Ctx) : String := joinPath (appPathOf ctx) "main.go"

/-- createMainVendored: build the legacy GOPATH workspace, relocate the
function source, then either copy an already-vendored framework (requested
version v0.0.0) or warn, fetch the framework into a scoped temporary cache
and check out the pinned tag (requested version = the pinned default). -/
def createMainVendored (ctx : Ctx) (fn : FnInfo) : List Event × Except BuildError Unit :=
  if ctx.fileExists (fnFrameworkVendoredPathOf ctx fn) then
    match ctx.exec (vendCpCmd ctx fn) with
    | .error e =>
      (vendoredSetupEvs ctx fn ++ [.logf foundVendoredMsg, .exec (vendCpCmd ctx fn)],
       .error (.toolFailure e))
    | .ok _ =>
      (vendoredSetupEvs ctx fn ++
         [.logf foundVendoredMsg, .exec (vendCpCmd ctx fn),
          .handOff "v0.0.0" (vendMainPath ctx) fn] ++
         (createMainGoFile ctx fn (vendMainPath ctx) "v0.0.0").1,
       Except.mapError .otherError (createMainGoFile ctx fn (vendMainPath ctx) "v0.0.0").2)
  else
    match ctx.exec goGetPkgCmd with
    | .error e =>
      (vendoredSetupEvs ctx fn ++
         [.logf excludedVendoredMsg, .warnf vendoredWarnMsg, .tempDir ctx.vendorCacheDir,
          .exec goGetPkgCmd, .removeAll ctx.vendorCacheDir],
       .error (.toolFailure e))
    | .ok _ =>
      match ctx.exec gitCheckoutCmd with
      | .error e =>
        (vendoredSetupEvs ctx fn ++
           [.logf excludedVendoredMsg, .warnf vendoredWarnMsg, .tempDir ctx.vendorCacheDir,
            .exec goGetPkgCmd, .exec gitCheckoutCmd, .removeAll ctx.vendorCacheDir],
         .error (.toolFailure e))
      | .ok _ =>
        (vendoredSetupEvs ctx fn ++
           [.logf excludedVendoredMsg, .warnf vendoredWarnMsg, .tempDir ctx.vendorCacheDir,
            .exec goGetPkgCmd, .exec gitCheckoutCmd,
            .handOff functionsFrameworkVersion (vendMainPath ctx) fn] ++
           (createMainGoFile ctx fn (vendMainPath ctx) functionsFrameworkVersion).1 ++
           [.removeAll ctx.vendorCacheDir],
         Except.mapError .otherError
           (createMainGoFile ctx fn (vendMainPath ctx) functionsFrameworkVersion).2)

/-- extractPackageNameInDir: run the toolchain-matched extraction helper
with a scoped temporary cache directory removed after the call. -/
def extractPackageNameInDir (ctx : Ctx) (source : String) :
    List Event × Except String String :=
  match ctx.exec (extractCmd source) with
  | .ok res =>
    ([.tempDir ctx.extractCacheDir, .exec (extractCmd source), .removeAll ctx.extractCacheDir],
     .ok res.stdout)
  | .error e =>
    ([.tempDir ctx.extractCacheDir, .exec (extractCmd source), .removeAll ctx.extractCacheDir],
     .error e)

/-- The strategy decision of buildFn: no go.mod on a toolchain without
manifest-free support fails; no go.mod otherwise takes the vendored-legacy
path; a go.mod whose stat succeeds with the owner-write bit clear fails;
any other go.mod takes the module-based path. -/
def strategyDecision (goModExists supportsNoGoMod : Bool) (stat : Option Nat) :
    Except BuildError Strategy :=
  if !goModExists then
    if !supportsNoGoMod then .error (.userError "function build requires go.mod file")
    else .ok .VendoredLegacy
  else if (match stat with
           | some perm => perm &&& 0o200 == 0
           | none => false) then
    .error (.userError "go.mod exists but is not writable")
  else .ok .ModuleBased

/-- The relocated function source directory. -/
def fnSourceOf (ctx : Ctx) : String := joinPath ctx.applicationRoot fnSourceDir

/-- The go.mod path probed by buildFn. -/
def goModPathOf (ctx : Ctx) : String := joinPath (fnSourceOf ctx) "go.mod"

/-- The layer-setup and source-relocation events that open buildFn. -/
def buildSetupEvs (ctx : Ctx) : List Event :=
  [.layer layerName, .setenv "GOPATH" ctx.layerPath, .setFunctionsEnvVars,
   .removeAll fnSourceDir, .mkdirAll fnSourceDir, .exec findMoveCmd]

/-- buildFn: set up the layer, relocate the function source into its
reserved subdirectory, extract the package name, decide the strategy, run
the chosen wiring path and register the web process. -/
def buildFn (ctx : Ctx) : List Event × Except BuildError Unit :=
  match ctx.exec findMoveCmd with
  | .error e => (buildSetupEvs ctx, .error (.toolFailure e))
  | .ok _ =>
    match (extractPackageNameInDir ctx (fnSourceOf ctx)).2 with
    | .error e =>
      (buildSetupEvs ctx ++ (extractPackageNameInDir ctx (fnSourceOf ctx)).1,
       .error (.toolFailure e))
    | .ok pkg =>
      match strategyDecision (ctx.fileExists (goModPathOf ctx)) ctx.supportsNoGoMod
              (ctx.statPerm (goModPathOf ctx)) with
      | .error e =>
        (buildSetupEvs ctx ++ (extractPackageNameInDir ctx (fnSourceOf ctx)).1, .error e)
      | .ok .VendoredLegacy =>
        match (createMainVendored ctx ⟨fnSourceOf ctx, ctx.fnTarget, pkg⟩).2 with
        | .error e =>
          (buildSetupEvs ctx ++ (extractPackageNameInDir ctx (fnSourceOf ctx)).1 ++
             (createMainVendored ctx ⟨fnSourceOf ctx, ctx.fnTarget, pkg⟩).1,
           .error e)
        | .ok _ =>
          (buildSetupEvs ctx ++ (extractPackageNameInDir ctx (fnSourceOf ctx)).1 ++
             (createMainVendored ctx ⟨fnSourceOf ctx, ctx.fnTarget, pkg⟩).1 ++ [.addWebProcess],
           .ok ())
      | .ok .ModuleBased =>
        match (createMainGoMod ctx ⟨fnSourceOf ctx, ctx.fnTarget, pkg⟩).2 with
        | .error e =>
          (buildSetupEvs ctx ++ (extractPackageNameInDir ctx (fnSourceOf ctx)).1 ++
             (createMainGoMod ctx ⟨fnSourceOf ctx, ctx.fnTarget, pkg⟩).1,
           .error e)
        | .ok _ =>
          (buildSetupEvs ctx ++ (extractPackageNameInDir ctx (fnSourceOf ctx)).1 ++
             (createMainGoMod ctx ⟨fnSourceOf ctx, ctx.fnTarget, pkg⟩).1 ++ [.addWebProcess],
           .ok ())

/- ## Observation helpers on traces -/

/-- Test for an exec event running exactly the given command. -/
def isExecOf (cmd : List String) : Event → Bool
  | .exec c => c == cmd
  | _ => false

/-- Number of times the trace runs exactly the given command. -/
def countExec (tr : List Event) (cmd : List String) : Nat :=
  (tr.filter (isExecOf cmd)).length

/-- Every temporary directory created in the trace is removed at some
later point of the trace. -/
def cleanedAfter (tr : List Event) : Prop :=
  ∀ d, Event.tempDir d ∈ tr → [Event.tempDir d, Event.removeAll d].Sublist tr

/-- Modelled from the spec: which collaborator commands create or modify
files. Module initialisation creates the application manifest, dependency
edits and fetches modify files, the copy, checkout and relocation commands
write into the tree; introspection (go list), the extraction helper
(go run) and version queries are read-only. -/
def goCmdWritesFiles (cmd : List String) : Bool :=
  match cmd with
  | "go" :: "mod" :: "init" :: _ => true
  | "go" :: "mod" :: "edit" :: _ => true
  | "go" :: "get" :: _ => true
  | "cp" :: _ => true
  | "git" :: "checkout" :: _ => true
  | "bash" :: _ => true
  | _ => false

/-- Events that create or modify files on disk. -/
def writesFiles : Event → Bool
  | .createFile _ => true
  | .rename _ _ => true
  | .mkdirAll _ => true
  | .tempDir _ => true
  | .exec cmd => goCmdWritesFiles cmd
  | _ => false

/- ## Helper lemmas -/

theorem splitOnChar_ne_nil (c : Char) (l : List Char) : splitOnChar c l ≠ [] := by
  induction l with
  | nil => simp [splitOnChar]
  | cons x xs ih =>
    rw [splitOnChar]
    split
    · simp
    · match h : splitOnChar c xs with
      | [] => exact absurd h ih
      | y :: ys => simp

theorem selectTemplateVariant_v000 : selectTemplateVariant "v0.0.0" = .ok .V0 := rfl

theorem selectTemplateVariant_v110 : selectTemplateVariant "v1.1.0" = .ok .V1_1 := rfl

theorem frameworkSpecifiedVersion_events (ctx : Ctx) (s : String) :
    ∀ e ∈ (frameworkSpecifiedVersion ctx s).1,
      e = Event.exec goListVersionCmd ∨ ∃ m, e = Event.logf m := by
  intro e he
  unfold frameworkSpecifiedVersion at he
  cases h : ctx.execWithErr goListVersionCmd with
  | success res =>
    rw [h] at he
    simp only [List.mem_cons, List.mem_singleton, List.not_mem_nil, or_false] at he
    rcases he with he | he
    · exact .inl he
    · exact .inr ⟨_, he⟩
  | failure r err =>
    rw [h] at he
    cases r with
    | some res =>
      cases hc : containsSub res.stderr "not a known dependency" with
      | true =>
        simp [hc] at he
        rcases he with he | he
        · exact .inl he
        · exact .inr ⟨_, he⟩
      | false =>
        simp [hc] at he
        exact .inl he
    | none =>
      simp only [List.mem_singleton] at he
      exact .inl he

theorem createMainGoFile_events (ctx : Ctx) (fn : FnInfo) (mp v : String) :
    ∀ e ∈ (createMainGoFile ctx fn mp v).1,
      (∃ p, e = Event.createFile p) ∨ ∃ t, e = Event.rendered t := by
  intro e he
  unfold createMainGoFile at he
  cases hs : selectTemplateVariant v with
  | error err =>
    rw [hs] at he
    simp only [List.mem_singleton] at he
    exact .inl ⟨_, he⟩
  | ok t =>
    rw [hs] at he
    cases ht : ctx.templateError with
    | some err =>
      rw [ht] at he
      simp only [List.mem_singleton] at he
      exact .inl ⟨_, he⟩
    | none =>
      rw [ht] at he
      simp only [List.mem_cons, List.mem_singleton, List.not_mem_nil, or_false] at he
      rcases he with he | he
      · exact .inl ⟨_, he⟩
      · exact .inr ⟨_, he⟩

theorem rendered_mem_createMainGoFile (ctx : Ctx) (fn : FnInfo) (mp v : String)
    (t : TemplateVariant) (h : Event.rendered t ∈ (createMainGoFile ctx fn mp v).1) :
    selectTemplateVariant v = .ok t := by
  unfold createMainGoFile at h
  cases hs : selectTemplateVariant v with
  | error err => rw [hs] at h; simp at h
  | ok t2 =>
    rw [hs] at h
    cases ht : ctx.templateError with
    | some err => rw [ht] at h; simp at h
    | none => rw [ht] at h; simp at h; rw [h]

theorem modulePathErrMsg_ne_notWritable (s : String) :
    modulePathErrMsg s ≠ "go.mod exists but is not writable" := by
  intro h
  unfold modulePathErrMsg at h
  have hl := congrArg String.length h
  rw [String.length_append] at hl
  have h1 : ("the module path in the function's go.mod must contain a dot in the first path element before a slash, e.g. example.com/module, found: " : String).length = 134 := rfl
  have h2 : ("go.mod exists but is not writable" : String).length = 33 := rfl
  omega

/- ## C2: malformed module identity -/

/-- Concrete environment whose module-identity introspection reports the
dot-free identity foo/bar; all other commands succeed trivially. -/
def ctxC2 : Ctx := {
  applicationRoot := "/workspace", buildpackRoot := "/bp", layerPath := "/layers/ff",
  fnTarget := "F", supportsNoGoMod := false,
  fileExists := fun _ => false, statPerm := fun _ => some 0o644,
  exec := fun cmd => if cmd = goListModCmd then .ok ⟨"foo/bar", ""⟩ else .ok ⟨"", ""⟩,
  execWithErr := fun _ => .failure none "unused",
  extractCacheDir := "/tmp/c1", vendorCacheDir := "/tmp/c2", templateError := none }

/-- Concrete function info for the C2 scenario. -/
def fnC2 : FnInfo := ⟨"/workspace/serverless_function_source_code", "F", "myfn"⟩

/-- C2 counterexample: on the identity foo/bar the module wiring fails
with the expected UserConfigurationError, but not before any file has
been written: the trace up to the failure already contains the go mod
init command, which creates the application-root go.mod. -/
theorem createMainGoMod_writes_before_failure_cex :
    (createMainGoMod ctxC2 fnC2).2 = .error (.userError (modulePathErrMsg "foo/bar"))
    ∧ Event.exec goModInitCmd ∈ (createMainGoMod ctxC2 fnC2).1
    ∧ writesFiles (Event.exec goModInitCmd) = true := by
  decide

/-- C2 (amended): for every module identity whose first slash-separated
segment contains no dot, createMainGoMod fails with a
UserConfigurationError, and the only operations preceding the failure are
the module-initialisation and identity-introspection commands — no
dependency edit, no local redirect and no entry-point file creation have
happened, though the initialisation command has already created the
application manifest. -/
theorem createMainGoMod_bad_module_identity (ctx : Ctx) (fn : FnInfo) (r0 res : ExecResult)
    (h0 : ctx.exec goModInitCmd = .ok r0) (h1 : ctx.exec goListModCmd = .ok res)
    (hdot : ((splitOnChar '/' res.stdout.data).headD []).contains '.' = false) :
    createMainGoMod ctx fn =
      ([.exec goModInitCmd, .exec goListModCmd],
       .error (.userError (modulePathErrMsg res.stdout))) := by
  unfold createMainGoMod createMainGoModValidated
  rw [h0, h1]
  have hne : (splitOnChar '/' res.stdout.data).isEmpty = false := by
    cases hq : splitOnChar '/' res.stdout.data with
    | nil => exact absurd hq (splitOnChar_ne_nil _ _)
    | cons a as => rfl
  have hbad : badModuleIdentity res.stdout = true := by
    unfold badModuleIdentity
    rw [hne, hdot]
    rfl
  simp [hbad]

/-- Witness for C2 (amended): the concrete foo/bar identity. -/
theorem createMainGoMod_bad_module_identity_witness :
    ctxC2.exec goModInitCmd = .ok ⟨"", ""⟩
    ∧ ctxC2.exec goListModCmd = .ok ⟨"foo/bar", ""⟩
    ∧ ((splitOnChar '/' (("foo/bar" : String)).data).headD []).contains '.' = false
    ∧ createMainGoMod ctxC2 fnC2 =
        ([.exec goModInitCmd, .exec goListModCmd],
         .error (.userError (modulePathErrMsg "foo/bar"))) :=
  ⟨rfl, rfl, rfl,
   createMainGoMod_bad_module_identity ctxC2 fnC2 ⟨"", ""⟩ ⟨"foo/bar", ""⟩ rfl rfl rfl⟩

/- ## C5: frameworkSpecifiedVersion outcome classification -/

/-- C5: frameworkSpecifiedVersion returns the trimmed stdout when the
introspection command succeeds; a failure with captured output whose
stderr matches the unknown-dependency pattern yields the empty
(unspecified) version without an error; a failure not matching the
pattern, or one without captured output, propagates the error. -/
theorem frameworkSpecifiedVersion_cases (ctx : Ctx) (s : String) (res : ExecResult)
    (err : String) :
    (ctx.execWithErr goListVersionCmd = .success res →
      (frameworkSpecifiedVersion ctx s).2 = .ok (strTrim res.stdout))
    ∧ (ctx.execWithErr goListVersionCmd = .failure (some res) err →
        containsSub res.stderr "not a known dependency" = true →
      (frameworkSpecifiedVersion ctx s).2 = .ok "")
    ∧ (ctx.execWithErr goListVersionCmd = .failure (some res) err →
        containsSub res.stderr "not a known dependency" = false →
      (frameworkSpecifiedVersion ctx s).2 = .error err)
    ∧ (ctx.execWithErr goListVersionCmd = .failure none err →
      (frameworkSpecifiedVersion ctx s).2 = .error err) := by
  refine ⟨?_, ?_, ?_, ?_⟩
  · intro h; unfold frameworkSpecifiedVersion; rw [h]
  · intro h hc; unfold frameworkSpecifiedVersion; rw [h]; simp [hc]
  · intro h hc; unfold frameworkSpecifiedVersion; rw [h]; simp [hc]
  · intro h; unfold frameworkSpecifiedVersion; rw [h]

/-- Concrete stderr of a failing version introspection that names an
unknown dependency. -/
def stderrW5 : String :=
  "go: module github.com/GoogleCloudPlatform/functions-framework-go: not a known dependency"

/-- Concrete environment in which the version introspection fails with an
unknown-dependency message. -/
def ctxW5 : Ctx := {
  applicationRoot := "/workspace", buildpackRoot := "/bp", layerPath := "/layers/ff",
  fnTarget := "Target", supportsNoGoMod := true,
  fileExists := fun _ => false, statPerm := fun _ => none,
  exec := fun _ => .ok ⟨"", ""⟩,
  execWithErr := fun _ => .failure (some ⟨"", stderrW5⟩) "exit status 1",
  extractCacheDir := "/tmp/cache1", vendorCacheDir := "/tmp/cache2",
  templateError := none }

/-- Witness for C5: at the concrete environment the unknown-dependency
failure yields the unspecified version with no error. -/
theorem frameworkSpecifiedVersion_cases_witness :
    ctxW5.execWithErr goListVersionCmd = .failure (some ⟨"", stderrW5⟩) "exit status 1"
    ∧ containsSub stderrW5 "not a known dependency" = true
    ∧ (frameworkSpecifiedVersion ctxW5 "/src").2 = .ok "" :=
  ⟨rfl, rfl,
   (frameworkSpecifiedVersion_cases ctxW5 "/src" ⟨"", stderrW5⟩ "exit status 1").2.1 rfl rfl⟩

/- ## C1: the four-case strategy table -/

/-- C1: The strategy decision in buildFn follows the four-case table:
manifest absent and no manifest-free toolchain support fails with a
UserConfigurationError; manifest absent with support takes the
VendoredLegacy path; manifest present whose stat shows the owner-write
bit clear fails with a UserConfigurationError; manifest present and
writable takes the ModuleBased path. -/
theorem strategyDecision_four_cases (sup : Bool) (st : Option Nat) (p : Nat) :
    strategyDecision false false st = .error (.userError "function build requires go.mod file")
    ∧ strategyDecision false true st = .ok .VendoredLegacy
    ∧ (p &&& 0o200 = 0 →
        strategyDecision true sup (some p) = .error (.userError "go.mod exists but is not writable"))
    ∧ (p &&& 0o200 ≠ 0 → strategyDecision true sup (some p) = .ok .ModuleBased) := by
  refine ⟨rfl, rfl, ?_, ?_⟩ <;> intro h <;> simp [strategyDecision, h]

/-- Witness for C1: concrete permission words exercising both
manifest-present cases. -/
theorem strategyDecision_four_cases_witness :
    ((0o444 : Nat) &&& 0o200 = 0 ∧
      strategyDecision true false (some 0o444) =
        .error (.userError "go.mod exists but is not writable"))
    ∧ ((0o644 : Nat) &&& 0o200 ≠ 0 ∧
      strategyDecision true false (some 0o644) = .ok .ModuleBased) :=
  ⟨⟨by decide, (strategyDecision_four_cases false (some 0o444) 0o444).2.2.1 (by decide)⟩,
   ⟨by decide, (strategyDecision_four_cases false (some 0o644) 0o644).2.2.2 (by decide)⟩⟩

/- ## C3: the version-thresholding vector -/

/-- C3 counterexample: the claim says the tolerantly parsed version
1.1.0-rc1 selects the V1_1 template, but semantic-versioning precedence
places the pre-release 1.1.0-rc1 strictly below the 1.1.0 threshold, so
the code selects the V0 template. -/
theorem selectTemplateVariant_rc1_cex :
    selectTemplateVariant "1.1.0-rc1" = .ok .V0 ∧
    selectTemplateVariant "1.1.0-rc1" ≠ .ok .V1_1 := by
  have h : selectTemplateVariant "1.1.0-rc1" = .ok .V0 := rfl
  exact ⟨h, by rw [h]; simp⟩

/-- C3 (amended): template selection satisfies the thresholding vector
with 1.1.0-rc1 corrected to V0: 1.0.9 and 1.0.10 and 1.1.0-rc1 select V0,
while 1.1.0 and 2.0.0 select V1_1. -/
theorem selectTemplateVariant_thresholds :
    selectTemplateVariant "1.0.9" = .ok .V0 ∧
    selectTemplateVariant "1.1.0" = .ok .V1_1 ∧
    selectTemplateVariant "1.1.0-rc1" = .ok .V0 ∧
    selectTemplateVariant "2.0.0" = .ok .V1_1 ∧
    selectTemplateVariant "1.0.10" = .ok .V0 :=
  ⟨rfl, rfl, rfl, rfl, rfl⟩

/- ## C6: package import path computation -/

theorem handOff_mem_validated (ctx : Ctx) (fn : FnInfo) (fnMod v mp : String) (fn2 : FnInfo)
    (h : Event.handOff v mp fn2 ∈ (createMainGoModValidated ctx fn fnMod).1) :
    fn2 = modWiredFnInfo ctx fn fnMod ∧ mp = modMainPath ctx := by
  unfold createMainGoModValidated at h
  cases hval : badModuleIdentity fnMod with
  | true =>
    simp only [hval, if_true] at h
    simp at h
  | false =>
    simp only [hval, Bool.false_eq_true, if_false] at h
    cases h2 : ctx.exec (goModEditRequireCmd fnMod) with
    | error e => simp only [h2] at h; simp at h
    | ok r2 =>
      simp only [h2] at h
      cases h3 : ctx.exec (goModEditReplaceCmd fnMod fn.Source) with
      | error e => simp only [h3] at h; simp at h
      | ok r3 =>
        simp only [h3] at h
        cases h4 : (frameworkSpecifiedVersion ctx fn.Source).2 with
        | error e =>
          simp only [h4] at h
          simp only [List.mem_cons] at h
          rcases h with h | h | h
          · simp at h
          · simp at h
          · rcases frameworkSpecifiedVersion_events ctx fn.Source _ h with h | ⟨m, h⟩ <;>
              simp at h
        | ok version =>
          simp only [h4] at h
          cases hv : version == "" with
          | true =>
            simp only [hv, if_true] at h
            cases h5 : ctx.exec goGetFrameworkCmd with
            | error e =>
              simp only [h5] at h
              simp only [List.mem_cons, List.mem_append, List.mem_singleton] at h
              rcases h with h | h | h | h
              · simp at h
              · simp at h
              · rcases frameworkSpecifiedVersion_events ctx fn.Source _ h with h | ⟨m, h⟩ <;>
                  simp at h
              · simp at h
            | ok r5 =>
              simp only [h5] at h
              simp only [List.mem_cons, List.mem_append] at h
              rcases h with h | h | h | h | h | h
              · simp at h
              · simp at h
              · rcases frameworkSpecifiedVersion_events ctx fn.Source _ h with h | ⟨m, h⟩ <;>
                  simp at h
              · simp at h
              · rw [Event.handOff.injEq] at h
                exact ⟨h.2.2, h.2.1⟩
              · rcases createMainGoFile_events ctx _ _ _ _ h with ⟨p, h⟩ | ⟨t, h⟩ <;>
                  simp at h
          | false =>
            simp only [hv, Bool.false_eq_true, if_false] at h
            simp only [List.mem_cons, List.mem_append] at h
            rcases h with h | h | h | h | h
            · simp at h
            · simp at h
            · rcases frameworkSpecifiedVersion_events ctx fn.Source _ h with h | ⟨m, h⟩ <;>
                simp at h
            · rw [Event.handOff.injEq] at h
              exact ⟨h.2.2, h.2.1⟩
            · rcases createMainGoFile_events ctx _ _ _ _ h with ⟨p, h⟩ | ⟨t, h⟩ <;>
                simp at h

/-- C6: any hand-off to the template renderer performed by createMainGoMod
carries a package import path equal to the introspected module identity
extended by the package name when an entry named after the package exists
at the application root, and equal to the module identity alone otherwise;
the source and target of the function info are passed through unchanged. -/
theorem createMainGoMod_packageImportPath (ctx : Ctx) (fn : FnInfo) (v mp : String)
    (fn2 : FnInfo) (h : Event.handOff v mp fn2 ∈ (createMainGoMod ctx fn).1) :
    ∃ res : ExecResult, ctx.exec goListModCmd = .ok res ∧
      fn2.Package = (if ctx.fileExists (joinPath ctx.applicationRoot fn.Package)
                     then res.stdout ++ "/" ++ fn.Package else res.stdout)
      ∧ fn2.Source = fn.Source ∧ fn2.Target = fn.Target := by
  unfold createMainGoMod at h
  cases h0 : ctx.exec goModInitCmd with
  | error e => simp only [h0] at h; simp at h
  | ok r0 =>
    simp only [h0] at h
    cases h1 : ctx.exec goListModCmd with
    | error e => simp only [h1] at h; simp at h
    | ok res =>
      simp only [h1] at h
      simp only [List.mem_cons] at h
      rcases h with h | h | h
      · simp at h
      · simp at h
      · have hm := handOff_mem_validated ctx fn res.stdout v mp fn2 h
        refine ⟨res, rfl, ?_, ?_, ?_⟩ <;> rw [hm.1] <;> rfl

/-- Concrete environment for the C6 witness: the introspected identity is
example.com/fn, no entry named after the package exists at the root, and
the declared framework version v1.0.5 is used. -/
def ctxW6 : Ctx := {
  applicationRoot := "/workspace", buildpackRoot := "/bp", layerPath := "/layers/ff",
  fnTarget := "F", supportsNoGoMod := false,
  fileExists := fun _ => false, statPerm := fun _ => some 0o644,
  exec := fun cmd => if cmd = goListModCmd then .ok ⟨"example.com/fn", ""⟩ else .ok ⟨"", ""⟩,
  execWithErr := fun _ => .success ⟨"v1.0.5\n", ""⟩,
  extractCacheDir := "/tmp/c1", vendorCacheDir := "/tmp/c2", templateError := none }

/-- Concrete function info for the C6 witness. -/
def fnW6 : FnInfo := ⟨"/workspace/serverless_function_source_code", "F", "myfn"⟩

/-- Witness for C6: in the concrete environment the hand-off carries
package import path example.com/fn (the identity alone, since no entry
named myfn exists at the application root). -/
theorem createMainGoMod_packageImportPath_witness :
    ∃ res : ExecResult, ctxW6.exec goListModCmd = .ok res ∧
      (FnInfo.mk fnW6.Source fnW6.Target "example.com/fn").Package =
        (if ctxW6.fileExists (joinPath ctxW6.applicationRoot fnW6.Package)
         then res.stdout ++ "/" ++ fnW6.Package else res.stdout)
      ∧ (FnInfo.mk fnW6.Source fnW6.Target "example.com/fn").Source = fnW6.Source
      ∧ (FnInfo.mk fnW6.Source fnW6.Target "example.com/fn").Target = fnW6.Target :=
  createMainGoMod_packageImportPath ctxW6 fnW6 "v1.0.5" (joinPath "/workspace" "main.go")
    (FnInfo.mk fnW6.Source fnW6.Target "example.com/fn") (by decide)

/- ## C7: framework-version resolution in the module-based path -/

theorem goGet_ne_require (x : String) : goGetFrameworkCmd ≠ goModEditRequireCmd x := by
  intro h
  have hl := congrArg List.length h
  simp [goGetFrameworkCmd, goModEditRequireCmd] at hl

theorem goGet_ne_replace (x y : String) : goGetFrameworkCmd ≠ goModEditReplaceCmd x y := by
  intro h
  have hl := congrArg List.length h
  simp [goGetFrameworkCmd, goModEditReplaceCmd] at hl

theorem goGet_ne_listVersion : goGetFrameworkCmd ≠ goListVersionCmd := by decide

/-- C7: in the module-based path, when the resolved framework version is
unspecified the framework dependency is explicitly added at the pinned
default and the renderer is handed that default; when a version is
declared, the renderer is handed the declared version and the explicit
framework add never runs. -/
theorem createMainGoMod_framework_version_resolution (ctx : Ctx) (fn : FnInfo)
    (r0 res r2 r3 : ExecResult)
    (h0 : ctx.exec goModInitCmd = .ok r0)
    (h1 : ctx.exec goListModCmd = .ok res)
    (hval : badModuleIdentity res.stdout = false)
    (h2 : ctx.exec (goModEditRequireCmd res.stdout) = .ok r2)
    (h3 : ctx.exec (goModEditReplaceCmd res.stdout fn.Source) = .ok r3) :
    ((frameworkSpecifiedVersion ctx fn.Source).2 = .ok "" →
      ∀ r4 : ExecResult, ctx.exec goGetFrameworkCmd = .ok r4 →
        Event.exec goGetFrameworkCmd ∈ (createMainGoMod ctx fn).1
        ∧ Event.handOff functionsFrameworkVersion (modMainPath ctx)
            (modWiredFnInfo ctx fn res.stdout) ∈ (createMainGoMod ctx fn).1)
    ∧ (∀ ver, (frameworkSpecifiedVersion ctx fn.Source).2 = .ok ver → ver ≠ "" →
        Event.exec goGetFrameworkCmd ∉ (createMainGoMod ctx fn).1
        ∧ Event.handOff ver (modMainPath ctx) (modWiredFnInfo ctx fn res.stdout)
            ∈ (createMainGoMod ctx fn).1) := by
  constructor
  · intro hv r4 h5
    unfold createMainGoMod createMainGoModValidated
    simp only [h0, h1, hval, Bool.false_eq_true, if_false, h2, h3, hv, h5]
    constructor <;> simp [List.mem_append]
  · intro ver hv hne
    unfold createMainGoMod createMainGoModValidated
    simp only [h0, h1, hval, Bool.false_eq_true, if_false, h2, h3, hv]
    have hbe : (ver == "") = false := by simp [hne]
    simp only [hbe, Bool.false_eq_true, if_false]
    constructor
    · intro hmem
      simp only [List.mem_cons, List.mem_append] at hmem
      rcases hmem with h | h | h | h | h | h
      · exact absurd h (by decide)
      · exact absurd h (by decide)
      · rw [Event.exec.injEq] at h
        exact goGet_ne_require res.stdout h
      · rw [Event.exec.injEq] at h
        exact goGet_ne_replace res.stdout fn.Source h
      · rcases frameworkSpecifiedVersion_events ctx fn.Source _ h with h | ⟨m, h⟩
        · rw [Event.exec.injEq] at h
          exact goGet_ne_listVersion h
        · simp at h
      · rcases h with h | h
        · simp at h
        · rcases createMainGoFile_events ctx _ _ _ _ h with ⟨p, h⟩ | ⟨t, h⟩ <;>
            simp at h
    · simp [List.mem_append]

/-- Concrete environment for the C7 witness: the identity introspection
yields example.com/fn and the version introspection reports an unknown
dependency, so the resolved version is unspecified. -/
def ctxW7 : Ctx := {
  applicationRoot := "/workspace", buildpackRoot := "/bp", layerPath := "/layers/ff",
  fnTarget := "F", supportsNoGoMod := false,
  fileExists := fun _ => false, statPerm := fun _ => some 0o644,
  exec := fun cmd => if cmd = goListModCmd then .ok ⟨"example.com/fn", ""⟩ else .ok ⟨"", ""⟩,
  execWithErr := fun _ => .failure (some ⟨"", stderrW5⟩) "exit status 1",
  extractCacheDir := "/tmp/c1", vendorCacheDir := "/tmp/c2", templateError := none }

/-- Concrete function info for the C7 witness. -/
def fnW7 : FnInfo := ⟨"/workspace/serverless_function_source_code", "F", "myfn"⟩

/-- Witness for C7: with an unspecified version, the explicit framework
add runs and the renderer receives the pinned default. -/
theorem createMainGoMod_framework_version_resolution_witness :
    (frameworkSpecifiedVersion ctxW7 fnW7.Source).2 = .ok ""
    ∧ Event.exec goGetFrameworkCmd ∈ (createMainGoMod ctxW7 fnW7).1
    ∧ Event.handOff functionsFrameworkVersion (modMainPath ctxW7)
        (modWiredFnInfo ctxW7 fnW7 "example.com/fn") ∈ (createMainGoMod ctxW7 fnW7).1 := by
  have h := (createMainGoMod_framework_version_resolution ctxW7 fnW7
    ⟨"", ""⟩ ⟨"example.com/fn", ""⟩ ⟨"", ""⟩ ⟨"", ""⟩ rfl rfl rfl rfl rfl).1 rfl ⟨"", ""⟩ rfl
  exact ⟨rfl, h.1, h.2⟩

/- ## C4: the two branches of the legacy vendored path -/

theorem countExec_append (l1 l2 : List Event) (c : List String) :
    countExec (l1 ++ l2) c = countExec l1 c + countExec l2 c := by
  simp [countExec, List.filter_append]

theorem countExec_eq_zero (l : List Event) (c : List String) :
    (∀ e ∈ l, isExecOf c e = false) → countExec l c = 0 := by
  induction l with
  | nil => intro h; rfl
  | cons a as ih =>
    intro h
    unfold countExec
    rw [List.filter_cons, h a (List.mem_cons_self _ _)]
    simp only [Bool.false_eq_true, if_false]
    exact ih fun e he => h e (List.mem_cons_of_mem _ he)

theorem countExec_createMainGoFile (ctx : Ctx) (fn : FnInfo) (mp v : String)
    (c : List String) : countExec (createMainGoFile ctx fn mp v).1 c = 0 :=
  countExec_eq_zero _ _ fun e he => by
    rcases createMainGoFile_events ctx fn mp v e he with ⟨p, hp⟩ | ⟨t, ht⟩ <;> subst_vars <;> rfl

theorem vendoredFound_handOff_version (ctx : Ctx) (fn : FnInfo)
    (hf : ctx.fileExists (fnFrameworkVendoredPathOf ctx fn) = true) :
    ∀ ver mp f, Event.handOff ver mp f ∈ (createMainVendored ctx fn).1 → ver = "v0.0.0" := by
  intro ver mp f hm
  unfold createMainVendored at hm
  simp only [hf, if_true] at hm
  cases hcp : ctx.exec (vendCpCmd ctx fn) with
  | error e =>
    simp only [hcp] at hm
    simp [vendoredSetupEvs] at hm
  | ok r =>
    simp only [hcp] at hm
    simp [vendoredSetupEvs] at hm
    rcases hm with ⟨h1, h2, h3⟩ | hm
    · exact h1
    · rcases createMainGoFile_events ctx _ _ _ _ hm with ⟨p, hp⟩ | ⟨t, ht⟩ <;> simp_all

theorem vendoredAbsent_handOff_version (ctx : Ctx) (fn : FnInfo)
    (hf : ctx.fileExists (fnFrameworkVendoredPathOf ctx fn) = false) :
    ∀ ver mp f, Event.handOff ver mp f ∈ (createMainVendored ctx fn).1 →
      ver = functionsFrameworkVersion := by
  intro ver mp f hm
  unfold createMainVendored at hm
  simp only [hf, Bool.false_eq_true, if_false] at hm
  cases h4 : ctx.exec goGetPkgCmd with
  | error e =>
    simp only [h4] at hm
    simp [vendoredSetupEvs] at hm
  | ok r4 =>
    simp only [h4] at hm
    cases h5 : ctx.exec gitCheckoutCmd with
    | error e =>
      simp only [h5] at hm
      simp [vendoredSetupEvs] at hm
    | ok r5 =>
      simp only [h5] at hm
      simp [vendoredSetupEvs] at hm
      rcases hm with ⟨h1, h2, h3⟩ | hm
      · exact h1
      · rcases createMainGoFile_events ctx _ _ _ _ hm with ⟨p, hp⟩ | ⟨t, ht⟩ <;> simp_all

/-- C4: in createMainVendored, a tree with a vendored framework copy
triggers no fetch and no checkout, runs the vendor-tree copy, and every
hand-off carries the version-less marker v0.0.0; a tree without it logs
the warning, runs exactly one fetch immediately followed by exactly one
checkout of the pinned tag, and every hand-off carries the pinned default
version. -/
theorem createMainVendored_branching (ctx : Ctx) (fn : FnInfo) :
    (ctx.fileExists (fnFrameworkVendoredPathOf ctx fn) = true →
      countExec (createMainVendored ctx fn).1 goGetPkgCmd = 0
      ∧ countExec (createMainVendored ctx fn).1 gitCheckoutCmd = 0
      ∧ Event.exec (vendCpCmd ctx fn) ∈ (createMainVendored ctx fn).1
      ∧ ∀ ver mp f, Event.handOff ver mp f ∈ (createMainVendored ctx fn).1 → ver = "v0.0.0")
    ∧ (ctx.fileExists (fnFrameworkVendoredPathOf ctx fn) = false →
       ∀ r4 r5 : ExecResult, ctx.exec goGetPkgCmd = .ok r4 → ctx.exec gitCheckoutCmd = .ok r5 →
        Event.warnf vendoredWarnMsg ∈ (createMainVendored ctx fn).1
        ∧ countExec (createMainVendored ctx fn).1 goGetPkgCmd = 1
        ∧ countExec (createMainVendored ctx fn).1 gitCheckoutCmd = 1
        ∧ (∃ l1 l2, (createMainVendored ctx fn).1 =
            l1 ++ Event.exec goGetPkgCmd :: Event.exec gitCheckoutCmd :: l2)
        ∧ ∀ ver mp f, Event.handOff ver mp f ∈ (createMainVendored ctx fn).1 →
            ver = functionsFrameworkVersion) := by
  constructor
  · intro hf
    refine ⟨?_, ?_, ?_, vendoredFound_handOff_version ctx fn hf⟩ <;>
      unfold createMainVendored <;> simp only [hf, if_true] <;>
      cases hcp : ctx.exec (vendCpCmd ctx fn)
    · rfl
    · rw [countExec_append, countExec_createMainGoFile, Nat.add_zero]
      rfl
    · rfl
    · rw [countExec_append, countExec_createMainGoFile, Nat.add_zero]
      rfl
    · simp [List.mem_append]
    · simp [List.mem_append]
  · intro hf r4 r5 h4 h5
    refine ⟨?_, ?_, ?_, ?_, vendoredAbsent_handOff_version ctx fn hf⟩ <;>
      unfold createMainVendored <;>
      simp only [hf, Bool.false_eq_true, if_false, h4, h5]
    · simp [List.mem_append]
    · rw [countExec_append, countExec_append, countExec_createMainGoFile]
      rfl
    · rw [countExec_append, countExec_append, countExec_createMainGoFile]
      rfl
    · refine ⟨vendoredSetupEvs ctx fn ++
        [.logf excludedVendoredMsg, .warnf vendoredWarnMsg, .tempDir ctx.vendorCacheDir],
        Event.handOff functionsFrameworkVersion (vendMainPath ctx) fn ::
          ((createMainGoFile ctx fn (vendMainPath ctx) functionsFrameworkVersion).1 ++
            [.removeAll ctx.vendorCacheDir]), ?_⟩
      simp [List.append_assoc]

/-- Concrete environment whose relocated tree contains a vendored
framework copy. -/
def ctxW4a : Ctx := {
  applicationRoot := "/workspace", buildpackRoot := "/bp", layerPath := "/layers/ff",
  fnTarget := "F", supportsNoGoMod := true,
  fileExists := fun _ => true, statPerm := fun _ => none,
  exec := fun _ => .ok ⟨"", ""⟩,
  execWithErr := fun _ => .failure none "unused",
  extractCacheDir := "/tmp/c1", vendorCacheDir := "/tmp/c2", templateError := none }

/-- Concrete environment whose relocated tree lacks a vendored framework
copy. -/
def ctxW4b : Ctx := {
  applicationRoot := "/workspace", buildpackRoot := "/bp", layerPath := "/layers/ff",
  fnTarget := "F", supportsNoGoMod := true,
  fileExists := fun _ => false, statPerm := fun _ => none,
  exec := fun _ => .ok ⟨"", ""⟩,
  execWithErr := fun _ => .failure none "unused",
  extractCacheDir := "/tmp/c1", vendorCacheDir := "/tmp/c2", templateError := none }

/-- Concrete function info for the C4 witness. -/
def fnW4 : FnInfo := ⟨"/workspace/serverless_function_source_code", "F", "myfn"⟩

/-- Witness for C4: both branches at concrete environments. -/
theorem createMainVendored_branching_witness :
    (countExec (createMainVendored ctxW4a fnW4).1 goGetPkgCmd = 0
     ∧ countExec (createMainVendored ctxW4a fnW4).1 gitCheckoutCmd = 0
     ∧ Event.exec (vendCpCmd ctxW4a fnW4) ∈ (createMainVendored ctxW4a fnW4).1
     ∧ ∀ ver mp f, Event.handOff ver mp f ∈ (createMainVendored ctxW4a fnW4).1 →
         ver = "v0.0.0")
    ∧ (Event.warnf vendoredWarnMsg ∈ (createMainVendored ctxW4b fnW4).1
       ∧ countExec (createMainVendored ctxW4b fnW4).1 goGetPkgCmd = 1
       ∧ countExec (createMainVendored ctxW4b fnW4).1 gitCheckoutCmd = 1
       ∧ (∃ l1 l2, (createMainVendored ctxW4b fnW4).1 =
           l1 ++ Event.exec goGetPkgCmd :: Event.exec gitCheckoutCmd :: l2)
       ∧ ∀ ver mp f, Event.handOff ver mp f ∈ (createMainVendored ctxW4b fnW4).1 →
           ver = functionsFrameworkVersion) :=
  ⟨(createMainVendored_branching ctxW4a fnW4).1 rfl,
   (createMainVendored_branching ctxW4b fnW4).2 rfl ⟨"", ""⟩ ⟨"", ""⟩ rfl rfl⟩

/- ## C9: a vendored framework copy always renders the V0 template -/

/-- C9: whenever the legacy vendored path finds a vendored framework copy,
every hand-off carries the version-less marker v0.0.0 and every rendering
uses the V0 template, since v0.0.0 is below the 1.1.0 threshold. -/
theorem createMainVendored_vendored_renders_V0 (ctx : Ctx) (fn : FnInfo)
    (hf : ctx.fileExists (fnFrameworkVendoredPathOf ctx fn) = true) :
    (∀ ver mp f, Event.handOff ver mp f ∈ (createMainVendored ctx fn).1 → ver = "v0.0.0")
    ∧ ∀ t, Event.rendered t ∈ (createMainVendored ctx fn).1 → t = .V0 := by
  constructor
  · exact vendoredFound_handOff_version ctx fn hf
  · intro t hm
    unfold createMainVendored at hm
    simp only [hf, if_true] at hm
    cases hcp : ctx.exec (vendCpCmd ctx fn) with
    | error e =>
      simp only [hcp] at hm
      simp [vendoredSetupEvs] at hm
    | ok r =>
      simp only [hcp] at hm
      simp [vendoredSetupEvs] at hm
      have hsel := rendered_mem_createMainGoFile ctx _ _ _ _ hm
      rw [selectTemplateVariant_v000] at hsel
      exact (Except.ok.injEq _ _).mp hsel.symm

/-- Concrete environment for the C9 witness: a vendored framework copy is
present and template execution succeeds. -/
def ctxW9 : Ctx := {
  applicationRoot := "/workspace", buildpackRoot := "/bp", layerPath := "/layers/ff",
  fnTarget := "F", supportsNoGoMod := true,
  fileExists := fun _ => true, statPerm := fun _ => none,
  exec := fun _ => .ok ⟨"", ""⟩,
  execWithErr := fun _ => .failure none "unused",
  extractCacheDir := "/tmp/c1", vendorCacheDir := "/tmp/c2", templateError := none }

/-- Concrete function info for the C9 witness. -/
def fnW9 : FnInfo := ⟨"/workspace/serverless_function_source_code", "F", "myfn"⟩

/-- Witness for C9: at the concrete environment a rendering happens and
it uses the V0 template. -/
theorem createMainVendored_vendored_renders_V0_witness :
    ctxW9.fileExists (fnFrameworkVendoredPathOf ctxW9 fnW9) = true
    ∧ Event.rendered .V0 ∈ (createMainVendored ctxW9 fnW9).1
    ∧ ∀ t, Event.rendered t ∈ (createMainVendored ctxW9 fnW9).1 → t = .V0 :=
  ⟨rfl, by decide, (createMainVendored_vendored_renders_V0 ctxW9 fnW9 rfl).2⟩

/- ## C8: scoped temporary directories are always removed -/

/-- C8: the extraction step always creates its temporary cache directory
and removes it later in its own trace, on success and on failure alike;
likewise every temporary vendor-fetch cache created by the legacy
vendored path is removed later in its trace, on every exit path. -/
theorem temp_dirs_cleaned (ctx : Ctx) (src : String) (fn : FnInfo) :
    Event.tempDir ctx.extractCacheDir ∈ (extractPackageNameInDir ctx src).1
    ∧ cleanedAfter (extractPackageNameInDir ctx src).1
    ∧ cleanedAfter (createMainVendored ctx fn).1 := by
  refine ⟨?_, ?_, ?_⟩
  · unfold extractPackageNameInDir
    cases hx : ctx.exec (extractCmd src) <;> simp
  · intro d hd
    unfold extractPackageNameInDir at hd ⊢
    cases hx : ctx.exec (extractCmd src) <;> simp only [hx] at hd ⊢ <;>
      simp at hd <;> subst hd <;>
      exact .cons₂ _ (.cons _ (.cons₂ _ .slnil))
  · intro d hd
    unfold createMainVendored at hd ⊢
    cases hf : ctx.fileExists (fnFrameworkVendoredPathOf ctx fn) with
    | true =>
      simp only [hf, if_true] at hd ⊢
      cases hcp : ctx.exec (vendCpCmd ctx fn) with
      | error e =>
        simp only [hcp] at hd
        simp [vendoredSetupEvs] at hd
      | ok r =>
        simp only [hcp] at hd
        simp [vendoredSetupEvs] at hd
        rcases createMainGoFile_events ctx _ _ _ _ hd with ⟨p, hp⟩ | ⟨t, ht⟩ <;> simp_all
    | false =>
      simp only [hf, Bool.false_eq_true, if_false] at hd ⊢
      cases h4 : ctx.exec goGetPkgCmd with
      | error e =>
        simp only [h4] at hd ⊢
        simp [vendoredSetupEvs] at hd
        subst hd
        simp only [vendoredSetupEvs]
        exact .cons _ (.cons _ (.cons _ (.cons _ (.cons _ (.cons _ (.cons _ (.cons _
          (.cons₂ _ (.cons _ (.cons₂ _ .slnil))))))))))
      | ok r4 =>
        simp only [h4] at hd ⊢
        cases h5 : ctx.exec gitCheckoutCmd with
        | error e =>
          simp only [h5] at hd ⊢
          simp [vendoredSetupEvs] at hd
          subst hd
          simp only [vendoredSetupEvs]
          exact .cons _ (.cons _ (.cons _ (.cons _ (.cons _ (.cons _ (.cons _ (.cons _
            (.cons₂ _ (.cons _ (.cons _ (.cons₂ _ .slnil)))))))))))
        | ok r5 =>
          simp only [h5] at hd ⊢
          simp [vendoredSetupEvs] at hd
          rcases hd with hd | hd
          · subst hd
            simp only [vendoredSetupEvs]
            exact .cons _ (.cons _ (.cons _ (.cons _ (.cons _ (.cons _ (.cons _ (.cons _
              (.cons₂ _ (.cons _ (.cons _ (.cons _
                (List.sublist_append_right _ _))))))))))))
          · rcases createMainGoFile_events ctx _ _ _ _ hd with ⟨p, hp⟩ | ⟨t, ht⟩ <;> simp_all

/- ## C10: the writability check of buildFn -/

theorem validated_result_ne_notWritable (ctx : Ctx) (fn : FnInfo) (fnMod : String) :
    (createMainGoModValidated ctx fn fnMod).2 ≠
      .error (.userError "go.mod exists but is not writable") := by
  unfold createMainGoModValidated
  cases hval : badModuleIdentity fnMod with
  | true =>
    simp only [hval, if_true]
    intro h
    simp only [Except.error.injEq, BuildError.userError.injEq] at h
    exact modulePathErrMsg_ne_notWritable fnMod h
  | false =>
    simp only [hval, Bool.false_eq_true, if_false]
    cases h2 : ctx.exec (goModEditRequireCmd fnMod) with
    | error e => simp
    | ok r2 =>
      simp only [h2]
      cases h3 : ctx.exec (goModEditReplaceCmd fnMod fn.Source) with
      | error e => simp
      | ok r3 =>
        simp only [h3]
        cases h4 : (frameworkSpecifiedVersion ctx fn.Source).2 with
        | error e => simp
        | ok version =>
          simp only [h4]
          cases hv : version == "" with
          | true =>
            simp only [hv, if_true]
            cases h5 : ctx.exec goGetFrameworkCmd with
            | error e => simp
            | ok r5 =>
              simp only [h5]
              cases hgf : (createMainGoFile ctx (modWiredFnInfo ctx fn fnMod)
                  (modMainPath ctx) functionsFrameworkVersion).2 with
              | error e => simp [hgf, Except.mapError]
              | ok u => simp [hgf, Except.mapError]
          | false =>
            simp only [hv, Bool.false_eq_true, if_false]
            cases hgf : (createMainGoFile ctx (modWiredFnInfo ctx fn fnMod)
                (modMainPath ctx) version).2 with
            | error e => simp [hgf, Except.mapError]
            | ok u => simp [hgf, Except.mapError]

theorem createMainGoMod_result_ne_notWritable (ctx : Ctx) (fn : FnInfo) :
    (createMainGoMod ctx fn).2 ≠
      .error (.userError "go.mod exists but is not writable") := by
  unfold createMainGoMod
  cases h0 : ctx.exec goModInitCmd with
  | error e => simp
  | ok r0 =>
    simp only [h0]
    cases h1 : ctx.exec goListModCmd with
    | error e => simp
    | ok res =>
      simp only [h1]
      exact validated_result_ne_notWritable ctx fn res.stdout

theorem goModInit_mem_createMainGoMod (ctx : Ctx) (fn : FnInfo) :
    Event.exec goModInitCmd ∈ (createMainGoMod ctx fn).1 := by
  unfold createMainGoMod
  cases h0 : ctx.exec goModInitCmd with
  | error e => simp
  | ok r => cases h1 : ctx.exec goListModCmd <;> simp

/-- C10: assuming the relocation and extraction commands succeed and
go.mod exists, buildFn fails with the non-writable-manifest error exactly
when stat-ing go.mod succeeds with the owner-write bit 0200 clear; and
when the stat call itself fails, the build instead proceeds with the
module-based path (the module-initialisation command runs). -/
theorem buildFn_writability_check (ctx : Ctx) (rMv rEx : ExecResult)
    (hmv : ctx.exec findMoveCmd = .ok rMv)
    (hex : ctx.exec (extractCmd (fnSourceOf ctx)) = .ok rEx)
    (hgm : ctx.fileExists (goModPathOf ctx) = true) :
    ((buildFn ctx).2 = .error (.userError "go.mod exists but is not writable")
      ↔ ∃ p, ctx.statPerm (goModPathOf ctx) = some p ∧ p &&& 0o200 = 0)
    ∧ (ctx.statPerm (goModPathOf ctx) = none →
        Event.exec goModInitCmd ∈ (buildFn ctx).1) := by
  have hext2 : (extractPackageNameInDir ctx (fnSourceOf ctx)).2 = .ok rEx.stdout := by
    unfold extractPackageNameInDir
    simp only [hex]
  have hmem := goModInit_mem_createMainGoMod ctx ⟨fnSourceOf ctx, ctx.fnTarget, rEx.stdout⟩
  have hne := createMainGoMod_result_ne_notWritable ctx ⟨fnSourceOf ctx, ctx.fnTarget, rEx.stdout⟩
  cases hst : ctx.statPerm (goModPathOf ctx) with
  | none =>
    have hsd : strategyDecision (ctx.fileExists (goModPathOf ctx)) ctx.supportsNoGoMod
        (ctx.statPerm (goModPathOf ctx)) = .ok .ModuleBased := by
      rw [hgm, hst]
      rfl
    constructor
    · unfold buildFn
      simp only [hmv, hext2, hsd]
      cases hm : (createMainGoMod ctx ⟨fnSourceOf ctx, ctx.fnTarget, rEx.stdout⟩).2 with
      | error e =>
        constructor
        · intro h
          rw [Except.error.injEq] at h
          rw [h] at hm
          exact absurd hm hne
        · rintro ⟨q, hq, hbit⟩
          simp at hq
      | ok u =>
        constructor
        · intro h
          simp at h
        · rintro ⟨q, hq, hbit⟩
          simp at hq
    · intro _
      unfold buildFn
      simp only [hmv, hext2, hsd]
      cases hm : (createMainGoMod ctx ⟨fnSourceOf ctx, ctx.fnTarget, rEx.stdout⟩).2 <;>
        simp [List.mem_append, hmem]
  | some p =>
    cases hb : p &&& 0o200 == 0 with
    | true =>
      have hsd : strategyDecision (ctx.fileExists (goModPathOf ctx)) ctx.supportsNoGoMod
          (ctx.statPerm (goModPathOf ctx)) =
            .error (.userError "go.mod exists but is not writable") := by
        rw [hgm, hst]
        unfold strategyDecision
        simp [hb]
      constructor
      · unfold buildFn
        simp only [hmv, hext2, hsd]
        constructor
        · intro _
          exact ⟨p, rfl, by simpa using hb⟩
        · intro _
          trivial
      · intro h
        simp at h
    | false =>
      have hsd : strategyDecision (ctx.fileExists (goModPathOf ctx)) ctx.supportsNoGoMod
          (ctx.statPerm (goModPathOf ctx)) = .ok .ModuleBased := by
        rw [hgm, hst]
        unfold strategyDecision
        simp [hb]
      constructor
      · unfold buildFn
        simp only [hmv, hext2, hsd]
        cases hm : (createMainGoMod ctx ⟨fnSourceOf ctx, ctx.fnTarget, rEx.stdout⟩).2 with
        | error e =>
          constructor
          · intro h
            rw [Except.error.injEq] at h
            rw [h] at hm
            exact absurd hm hne
          · rintro ⟨q, hq, hbit⟩
            rw [Option.some.injEq] at hq
            subst hq
            simp at hb
            exact absurd hbit hb
        | ok u =>
          constructor
          · intro h
            simp at h
          · rintro ⟨q, hq, hbit⟩
            rw [Option.some.injEq] at hq
            subst hq
            simp at hb
            exact absurd hbit hb
      · intro h
        simp at h

/-- Concrete environment for the C10 witness: go.mod exists and its stat
reports permissions 0444 (owner-write bit clear). -/
def ctxW10 : Ctx := {
  applicationRoot := "/workspace", buildpackRoot := "/bp", layerPath := "/layers/ff",
  fnTarget := "F", supportsNoGoMod := false,
  fileExists := fun _ => true, statPerm := fun _ => some 0o444,
  exec := fun cmd => if cmd = goListModCmd then .ok ⟨"example.com/fn", ""⟩ else .ok ⟨"pkg", ""⟩,
  execWithErr := fun _ => .success ⟨"v1.0.5", ""⟩,
  extractCacheDir := "/tmp/c1", vendorCacheDir := "/tmp/c2", templateError := none }

/-- Witness for C10: the concrete non-writable manifest trips the check. -/
theorem buildFn_writability_check_witness :
    ctxW10.exec findMoveCmd = .ok ⟨"pkg", ""⟩
    ∧ ctxW10.fileExists (goModPathOf ctxW10) = true
    ∧ ((buildFn ctxW10).2 = .error (.userError "go.mod exists but is not writable")
        ↔ ∃ p, ctxW10.statPerm (goModPathOf ctxW10) = some p ∧ p &&& 0o200 = 0) :=
  ⟨rfl, rfl, (buildFn_writability_check ctxW10 ⟨"pkg", ""⟩ ⟨"pkg", ""⟩ rfl rfl rfl).1⟩

end Buildpack

